import Mathlib

/-
  Verification development for the GSD Assessment API (src/api.py).

  The five module-level lists (users_db, images_db, models_db,
  assessments_db, quality_metrics_db) become the fields of a `DB` record.
  Each HTTP handler becomes a function taking its request payload, the
  environment data it draws from the outside world (timestamps, the
  generated api key, the three random samples), and the current `DB`;
  it returns the handler result (`Except ApiError ρ`, where an `error`
  models `raise HTTPException`) together with the store state after the
  call.  Python ints are `Int`, floats are `ℚ`, strings are `String`.
-/

namespace GsdApi

/-- Shallow embedding of fastapi.HTTPException: a status code and detail. -/
structure ApiError where
  status : Nat
  detail : String
deriving Repr, DecidableEq

/-- UserRole enum from api.py. -/
inductive UserRole where
  | user
  | admin
  | moderator
deriving Repr, DecidableEq

/-- ImageStatus enum from api.py. -/
inductive ImageStatus where
  | uploaded
  | processing
  | completed
  | failed
deriving Repr, DecidableEq

/-- A record of users_db: UserResponse fields. -/
structure User where
  id : Int
  username : String
  email : String
  role : UserRole
  registration_date : Nat
  api_key : String
deriving Repr, DecidableEq

/-- A record of images_db: ImageResponse fields. -/
structure Image where
  id : Int
  filename : String
  file_size : Int
  width : Int
  height : Int
  format : String
  user_id : Int
  upload_date : Nat
  status : ImageStatus
deriving Repr, DecidableEq

/-- A record of models_db: ModelResponse fields. -/
structure Model where
  id : Int
  model_name : String
  version : String
  architecture : String
  accuracy : ℚ
  is_active : Bool
  training_date : Nat
deriving Repr, DecidableEq

/-- A record of assessments_db: AssessmentResponse fields. -/
structure Assessment where
  id : Int
  image_id : Int
  model_id : Int
  gsd_value : ℚ
  confidence_score : ℚ
  processing_time : ℚ
  assessment_date : Nat
deriving Repr, DecidableEq

/-- A record of quality_metrics_db. -/
structure QualityMetrics where
  id : Int
  assessment_id : Int
  sharpness_score : ℚ
  noise_level : ℚ
  contrast_ratio : ℚ
  blur_detected : Bool
  quality_grade : String
deriving Repr, DecidableEq

/-- The five module-level stores of api.py. -/
structure DB where
  users_db : List User
  images_db : List Image
  models_db : List Model
  assessments_db : List Assessment
  quality_metrics_db : List QualityMetrics
deriving Repr, DecidableEq

/-- The initial (empty) state of the five stores. -/
def initDB : DB := ⟨[], [], [], [], []⟩

/-- Request body of POST /api/v1/users (UserCreate). -/
structure UserCreate where
  username : String
  email : String
  role : UserRole
deriving Repr, DecidableEq

/-- Request body of PUT /api/v1/users/id (UserUpdate, unset fields omitted). -/
structure UserUpdate where
  username : Option String
  email : Option String
  role : Option UserRole
deriving Repr, DecidableEq

/-- Request body of POST /api/v1/images (ImageCreate). -/
structure ImageCreate where
  filename : String
  file_size : Int
  width : Int
  height : Int
  format : String
  user_id : Int
deriving Repr, DecidableEq

/-- Request body of PUT /api/v1/images/id (ImageUpdate). -/
structure ImageUpdate where
  filename : Option String
  status : Option ImageStatus
deriving Repr, DecidableEq

/-- Request body of POST /api/v1/models (ModelCreate). -/
structure ModelCreate where
  model_name : String
  version : String
  architecture : String
  accuracy : ℚ
  is_active : Bool
deriving Repr, DecidableEq

/-- Request body of PUT /api/v1/models/id (ModelUpdate). -/
structure ModelUpdate where
  model_name : Option String
  is_active : Option Bool
deriving Repr, DecidableEq

/-- Request body of POST /api/v1/assessments (AssessmentCreate). -/
structure AssessmentCreate where
  image_id : Int
  model_id : Int
  gsd_value : ℚ
  confidence_score : ℚ
  processing_time : ℚ
deriving Repr, DecidableEq

/-- Request body of PUT /api/v1/assessments/id (AssessmentUpdate). -/
structure AssessmentUpdate where
  gsd_value : Option ℚ
  confidence_score : Option ℚ
deriving Repr, DecidableEq

/-- The three random.uniform samples drawn inside create_assessment. -/
structure Draws where
  gsd : ℚ
  conf : ℚ
  ptime : ℚ
deriving Repr, DecidableEq

/-- The loop "for x in db: if p x: return x" used by all get handlers. -/
def findLoop (p : α → Bool) : List α → Option α
  | [] => none
  | x :: xs => if p x then some x else findLoop p xs

/-- The loop "for i, x in enumerate(db): if p x: db.pop(i); return x":
returns the first element satisfying p together with the list without it. -/
def popFirst (p : α → Bool) : List α → Option (α × List α)
  | [] => none
  | x :: xs =>
    if p x then some (x, xs)
    else
      match popFirst p xs with
      | some (r, xs') => some (r, x :: xs')
      | none => none

/-- The loop "for x in db: if p x: x.update(data); return x": updates the
first element satisfying p in place and returns it with the new list. -/
def updateFirst (p : α → Bool) (f : α → α) : List α → Option (α × List α)
  | [] => none
  | x :: xs =>
    if p x then some (f x, f x :: xs)
    else
      match updateFirst p f xs with
      | some (r, xs') => some (r, x :: xs')
      | none => none

/-- Python round-half-to-even of a rational to the nearest integer. -/
def pyRoundInt (q : ℚ) : Int :=
  let n : Int := ⌊q⌋
  let frac : ℚ := q - (n : ℚ)
  if frac < 1/2 then n
  else if 1/2 < frac then n + 1
  else if n % 2 = 0 then n else n + 1

/-- Python round(q, 2): round half to even at two decimal places. -/
def round2 (q : ℚ) : ℚ := (pyRoundInt (q * 100) : ℚ) / 100

-- ========== USERS ==========

/-- The duplicate-scan loop at the top of create_user: for each existing
user, first the email check, then the username check. -/
def findDup (email username : String) : List User → Option ApiError
  | [] => none
  | u :: us =>
    if u.email == email then some ⟨400, "Email already registered"⟩
    else if u.username == username then some ⟨400, "Username already taken"⟩
    else findDup email username us

/-- GET /api/v1/users/user_id (get_user in api.py). -/
def get_user (user_id : Int) (s : DB) : Except ApiError User :=
  match findLoop (fun u => u.id == user_id) s.users_db with
  | some u => Except.ok u
  | none => Except.error ⟨404, "User not found"⟩

/-- POST /api/v1/users (create_user in api.py); now and key stand for
datetime.now() and the generated api key. -/
def create_user (user : UserCreate) (now : Nat) (key : String) (s : DB) :
    Except ApiError User × DB :=
  match findDup user.email user.username s.users_db with
  | some e => (Except.error e, s)
  | none =>
    let new_user : User :=
      { id := (s.users_db.length : Int) + 1
        username := user.username
        email := user.email
        role := user.role
        registration_date := now
        api_key := key }
    (Except.ok new_user, { s with users_db := s.users_db ++ [new_user] })

/-- The dict merge user.update(update_data) with exclude_unset fields. -/
def applyUserUpdate (upd : UserUpdate) (u : User) : User :=
  { u with
    username := upd.username.getD u.username
    email := upd.email.getD u.email
    role := upd.role.getD u.role }

/-- PUT /api/v1/users/user_id (update_user in api.py). -/
def update_user (user_id : Int) (upd : UserUpdate) (s : DB) :
    Except ApiError User × DB :=
  match updateFirst (fun u => u.id == user_id) (applyUserUpdate upd) s.users_db with
  | some (u, users') => (Except.ok u, { s with users_db := users' })
  | none => (Except.error ⟨404, "User not found"⟩, s)

/-- DELETE /api/v1/users/user_id (delete_user in api.py): rebuilds
images_db without the user's images, keeps only assessments whose
image_id is among the ids of the remaining images, then pops the user.
quality_metrics_db is not touched by this handler. -/
def delete_user (user_id : Int) (s : DB) : Except ApiError String × DB :=
  match popFirst (fun u => u.id == user_id) s.users_db with
  | some (u, users') =>
    let images' := s.images_db.filter (fun img => img.user_id != user_id)
    let image_ids := images'.map (fun img => img.id)
    let assessments' := s.assessments_db.filter (fun a => image_ids.contains a.image_id)
    (Except.ok ("User " ++ u.username ++ " deleted successfully"),
      { s with users_db := users', images_db := images', assessments_db := assessments' })
  | none => (Except.error ⟨404, "User not found"⟩, s)

-- ========== IMAGES ==========

/-- GET /api/v1/images/image_id (get_image in api.py). -/
def get_image (image_id : Int) (s : DB) : Except ApiError Image :=
  match findLoop (fun i => i.id == image_id) s.images_db with
  | some i => Except.ok i
  | none => Except.error ⟨404, "Image not found"⟩

/-- POST /api/v1/images (create_image in api.py); now stands for
datetime.now(). -/
def create_image (image : ImageCreate) (now : Nat) (s : DB) :
    Except ApiError Image × DB :=
  if !(s.users_db.any (fun u => u.id == image.user_id)) then
    (Except.error ⟨404, "User not found"⟩, s)
  else
    let new_image : Image :=
      { id := (s.images_db.length : Int) + 1
        filename := image.filename
        file_size := image.file_size
        width := image.width
        height := image.height
        format := image.format
        user_id := image.user_id
        upload_date := now
        status := ImageStatus.uploaded }
    (Except.ok new_image, { s with images_db := s.images_db ++ [new_image] })

/-- The dict merge image.update(update_data) with exclude_unset fields. -/
def applyImageUpdate (upd : ImageUpdate) (i : Image) : Image :=
  { i with
    filename := upd.filename.getD i.filename
    status := upd.status.getD i.status }

/-- PUT /api/v1/images/image_id (update_image in api.py). -/
def update_image (image_id : Int) (upd : ImageUpdate) (s : DB) :
    Except ApiError Image × DB :=
  match updateFirst (fun i => i.id == image_id) (applyImageUpdate upd) s.images_db with
  | some (i, images') => (Except.ok i, { s with images_db := images' })
  | none => (Except.error ⟨404, "Image not found"⟩, s)

/-- DELETE /api/v1/images/image_id (delete_image in api.py): drops all
assessments whose image_id equals the deleted id, then pops the image.
quality_metrics_db is not touched by this handler. -/
def delete_image (image_id : Int) (s : DB) : Except ApiError String × DB :=
  match popFirst (fun i => i.id == image_id) s.images_db with
  | some (i, images') =>
    let assessments' := s.assessments_db.filter (fun a => a.image_id != image_id)
    (Except.ok ("Image " ++ i.filename ++ " deleted successfully"),
      { s with images_db := images', assessments_db := assessments' })
  | none => (Except.error ⟨404, "Image not found"⟩, s)

-- ========== NEURAL NETWORK MODELS ==========

/-- GET /api/v1/models/model_id (get_model in api.py). -/
def get_model (model_id : Int) (s : DB) : Except ApiError Model :=
  match findLoop (fun m => m.id == model_id) s.models_db with
  | some m => Except.ok m
  | none => Except.error ⟨404, "Model not found"⟩

/-- POST /api/v1/models (create_model in api.py); now stands for
datetime.now(). -/
def create_model (model : ModelCreate) (now : Nat) (s : DB) :
    Except ApiError Model × DB :=
  let new_model : Model :=
    { id := (s.models_db.length : Int) + 1
      model_name := model.model_name
      version := model.version
      architecture := model.architecture
      accuracy := model.accuracy
      is_active := model.is_active
      training_date := now }
  (Except.ok new_model, { s with models_db := s.models_db ++ [new_model] })

/-- The dict merge model.update(update_data) with exclude_unset fields. -/
def applyModelUpdate (upd : ModelUpdate) (m : Model) : Model :=
  { m with
    model_name := upd.model_name.getD m.model_name
    is_active := upd.is_active.getD m.is_active }

/-- PUT /api/v1/models/model_id (update_model in api.py). -/
def update_model (model_id : Int) (upd : ModelUpdate) (s : DB) :
    Except ApiError Model × DB :=
  match updateFirst (fun m => m.id == model_id) (applyModelUpdate upd) s.models_db with
  | some (m, models') => (Except.ok m, { s with models_db := models' })
  | none => (Except.error ⟨404, "Model not found"⟩, s)

/-- DELETE /api/v1/models/model_id (delete_model in api.py): pops the
model; no other store is read or written. -/
def delete_model (model_id : Int) (s : DB) : Except ApiError String × DB :=
  match popFirst (fun m => m.id == model_id) s.models_db with
  | some (m, models') =>
    (Except.ok ("Model " ++ m.model_name ++ " deleted successfully"),
      { s with models_db := models' })
  | none => (Except.error ⟨404, "Model not found"⟩, s)

-- ========== GSD ASSESSMENTS ==========

/-- GET /api/v1/assessments/assessment_id (get_assessment in api.py). -/
def get_assessment (assessment_id : Int) (s : DB) : Except ApiError Assessment :=
  match findLoop (fun a => a.id == assessment_id) s.assessments_db with
  | some a => Except.ok a
  | none => Except.error ⟨404, "Assessment not found"⟩

/-- POST /api/v1/assessments (create_assessment in api.py): validates
image_id then model_id, synthesizes the rounded random scores (the
caller-supplied gsd_value, confidence_score and processing_time are
ignored), appends the assessment, then appends a fixed QualityMetrics
record keyed to the new assessment id. d carries the three
random.uniform samples and now stands for datetime.now(). -/
def create_assessment (assessment : AssessmentCreate) (d : Draws) (now : Nat)
    (s : DB) : Except ApiError Assessment × DB :=
  if !(s.images_db.any (fun i => i.id == assessment.image_id)) then
    (Except.error ⟨404, "Image not found"⟩, s)
  else if !(s.models_db.any (fun m => m.id == assessment.model_id)) then
    (Except.error ⟨404, "Model not found"⟩, s)
  else
    let new_assessment : Assessment :=
      { id := (s.assessments_db.length : Int) + 1
        image_id := assessment.image_id
        model_id := assessment.model_id
        gsd_value := round2 d.gsd
        confidence_score := round2 d.conf
        processing_time := round2 d.ptime
        assessment_date := now }
    let quality_metrics : QualityMetrics :=
      { id := (s.quality_metrics_db.length : Int) + 1
        assessment_id := new_assessment.id
        sharpness_score := 0.8
        noise_level := 0.1
        contrast_ratio := 2.5
        blur_detected := false
        quality_grade := "good" }
    (Except.ok new_assessment,
      { s with
        assessments_db := s.assessments_db ++ [new_assessment]
        quality_metrics_db := s.quality_metrics_db ++ [quality_metrics] })

/-- The dict merge assessment.update(update_data) with exclude_unset fields. -/
def applyAssessmentUpdate (upd : AssessmentUpdate) (a : Assessment) : Assessment :=
  { a with
    gsd_value := upd.gsd_value.getD a.gsd_value
    confidence_score := upd.confidence_score.getD a.confidence_score }

/-- PUT /api/v1/assessments/assessment_id (update_assessment in api.py). -/
def update_assessment (assessment_id : Int) (upd : AssessmentUpdate) (s : DB) :
    Except ApiError Assessment × DB :=
  match updateFirst (fun a => a.id == assessment_id) (applyAssessmentUpdate upd)
      s.assessments_db with
  | some (a, assessments') => (Except.ok a, { s with assessments_db := assessments' })
  | none => (Except.error ⟨404, "Assessment not found"⟩, s)

/-- DELETE /api/v1/assessments/assessment_id (delete_assessment in
api.py): drops the quality metrics keyed to the id, then pops the
assessment. -/
def delete_assessment (assessment_id : Int) (s : DB) : Except ApiError String × DB :=
  match popFirst (fun a => a.id == assessment_id) s.assessments_db with
  | some (a, assessments') =>
    let qms' := s.quality_metrics_db.filter (fun qm => qm.assessment_id != assessment_id)
    (Except.ok ("Assessment for image " ++ toString a.image_id ++ " deleted successfully"),
      { s with assessments_db := assessments', quality_metrics_db := qms' })
  | none => (Except.error ⟨404, "Assessment not found"⟩, s)

/-- POST /api/v1/reset (reset_data in api.py): clears all five stores. -/
def reset_data (_s : DB) : Except ApiError String × DB :=
  (Except.ok ("All data reset successfully"), initDB)

-- ========== REACHABILITY ==========

/-- One call of a state-mutating handler (successful or not) with
arbitrary request data and environment inputs, taking the stores from s
to the state the handler leaves behind. -/
inductive Step : DB → DB → Prop where
  | createUser (u : UserCreate) (now : Nat) (key : String) (s : DB) :
      Step s (create_user u now key s).2
  | updateUser (user_id : Int) (upd : UserUpdate) (s : DB) :
      Step s (update_user user_id upd s).2
  | deleteUser (user_id : Int) (s : DB) :
      Step s (delete_user user_id s).2
  | createImage (i : ImageCreate) (now : Nat) (s : DB) :
      Step s (create_image i now s).2
  | updateImage (image_id : Int) (upd : ImageUpdate) (s : DB) :
      Step s (update_image image_id upd s).2
  | deleteImage (image_id : Int) (s : DB) :
      Step s (delete_image image_id s).2
  | createModel (m : ModelCreate) (now : Nat) (s : DB) :
      Step s (create_model m now s).2
  | updateModel (model_id : Int) (upd : ModelUpdate) (s : DB) :
      Step s (update_model model_id upd s).2
  | deleteModel (model_id : Int) (s : DB) :
      Step s (delete_model model_id s).2
  | createAssessment (a : AssessmentCreate) (d : Draws) (now : Nat) (s : DB) :
      Step s (create_assessment a d now s).2
  | updateAssessment (assessment_id : Int) (upd : AssessmentUpdate) (s : DB) :
      Step s (update_assessment assessment_id upd s).2
  | deleteAssessment (assessment_id : Int) (s : DB) :
      Step s (delete_assessment assessment_id s).2
  | reset (s : DB) :
      Step s (reset_data s).2

/-- States reachable from the empty stores by any sequence of handler
calls (get handlers do not change the stores). -/
inductive Reachable : DB → Prop where
  | init : Reachable initDB
  | step {s s' : DB} : Reachable s → Step s s' → Reachable s'

-- ========== HELPER LEMMAS ==========

theorem findLoop_eq_none {p : α → Bool} {l : List α} :
    findLoop p l = none ↔ ∀ x ∈ l, p x = false := by
  induction l with
  | nil => simp [findLoop]
  | cons x xs ih =>
    by_cases h : p x <;> simp [findLoop, h, ih]

theorem findLoop_some_decomp {p : α → Bool} {l : List α} {x : α}
    (h : findLoop p l = some x) :
    ∃ l1 l2, l = l1 ++ x :: l2 ∧ (∀ y ∈ l1, p y = false) ∧ p x = true := by
  induction l with
  | nil => simp [findLoop] at h
  | cons z zs ih =>
    by_cases hz : p z
    · simp [findLoop, hz] at h
      exact ⟨[], zs, by simp [h], by simp, h ▸ hz⟩
    · simp [findLoop, hz] at h
      obtain ⟨l1, l2, hl, hnone, hx⟩ := ih h
      exact ⟨z :: l1, l2, by simp [hl], by simpa [hz] using hnone, hx⟩

theorem popFirst_isSome {p : α → Bool} {l : List α} {x : α}
    (hx : x ∈ l) (hpx : p x = true) : ∃ r, popFirst p l = some r := by
  induction l with
  | nil => cases hx
  | cons z zs ih =>
    by_cases hz : p z
    · exact ⟨(z, zs), by simp [popFirst, hz]⟩
    · have hz' : p z = false := by simpa using hz
      rcases List.mem_cons.mp hx with rfl | hx2
      · rw [hpx] at hz'; cases hz'
      · obtain ⟨⟨r1, r2⟩, hr⟩ := ih hx2
        exact ⟨(r1, z :: r2), by simp [popFirst, hz', hr]⟩

theorem popFirst_eq_none {p : α → Bool} {l : List α} :
    popFirst p l = none ↔ ∀ x ∈ l, p x = false := by
  induction l with
  | nil => simp [popFirst]
  | cons x xs ih =>
    constructor
    · intro h
      by_cases hx : p x
      · simp [popFirst, hx] at h
      · have hx' : p x = false := by simpa using hx
        cases hrec : popFirst p xs with
        | some r =>
          obtain ⟨r1, r2⟩ := r
          simp [popFirst, hx', hrec] at h
        | none =>
          intro y hy
          rcases List.mem_cons.mp hy with rfl | hy
          · exact hx'
          · exact ih.mp hrec y hy
    · intro hall
      have hx' : p x = false := hall x (List.mem_cons_self _ _)
      have hrec : popFirst p xs = none :=
        ih.mpr (fun y hy => hall y (List.mem_cons_of_mem _ hy))
      simp [popFirst, hx', hrec]

theorem popFirst_some_decomp {p : α → Bool} {l l' : List α} {x : α}
    (h : popFirst p l = some (x, l')) :
    ∃ l1 l2, l = l1 ++ x :: l2 ∧ l' = l1 ++ l2 ∧
      (∀ y ∈ l1, p y = false) ∧ p x = true := by
  induction l generalizing l' with
  | nil => simp [popFirst] at h
  | cons z zs ih =>
    by_cases hz : p z
    · simp [popFirst, hz] at h
      exact ⟨[], zs, by simp [h.1], by simp [h.2], by simp, h.1 ▸ hz⟩
    · simp only [popFirst, hz, if_false, Bool.false_eq_true] at h
      cases hrec : popFirst p zs with
      | none => simp [hrec] at h
      | some r =>
        obtain ⟨r1, r2⟩ := r
        simp [hrec] at h
        obtain ⟨l1, l2, hl, hl', hnone, hx⟩ := ih (h.1 ▸ hrec)
        refine ⟨z :: l1, l2, by simp [hl], ?_, ?_, hx⟩
        · rw [← h.2, hl']; simp
        · intro y hy
          rcases List.mem_cons.mp hy with rfl | hy
          · simpa using hz
          · exact hnone y hy

theorem popFirst_mem_keep {p : α → Bool} {l l' : List α} {x y : α}
    (h : popFirst p l = some (x, l')) (hy : y ∈ l) (hpy : p y = false) :
    y ∈ l' := by
  obtain ⟨l1, l2, hl, hl', hnone, hx⟩ := popFirst_some_decomp h
  subst hl hl'
  rcases List.mem_append.mp hy with h1 | h2
  · exact List.mem_append.mpr (Or.inl h1)
  · rcases List.mem_cons.mp h2 with rfl | h2
    · rw [hx] at hpy; cases hpy
    · exact List.mem_append.mpr (Or.inr h2)

theorem popFirst_subset {p : α → Bool} {l l' : List α} {x y : α}
    (h : popFirst p l = some (x, l')) (hy : y ∈ l') : y ∈ l := by
  obtain ⟨l1, l2, hl, hl', hnone, hx⟩ := popFirst_some_decomp h
  subst hl hl'
  rcases List.mem_append.mp hy with h1 | h2
  · exact List.mem_append.mpr (Or.inl h1)
  · exact List.mem_append.mpr (Or.inr (List.mem_cons_of_mem _ h2))

theorem updateFirst_mem_of {p : α → Bool} {f : α → α} {l l' : List α} {r x : α}
    (h : updateFirst p f l = some (r, l')) (hx : x ∈ l) :
    x ∈ l' ∨ f x ∈ l' := by
  induction l generalizing l' with
  | nil => simp [updateFirst] at h
  | cons z zs ih =>
    by_cases hz : p z
    · simp [updateFirst, hz] at h
      rcases List.mem_cons.mp hx with rfl | hx
      · exact Or.inr (by rw [← h.2]; exact List.mem_cons_self _ _)
      · exact Or.inl (by rw [← h.2]; exact List.mem_cons_of_mem _ hx)
    · simp only [updateFirst, hz, if_false, Bool.false_eq_true] at h
      cases hrec : updateFirst p f zs with
      | none => simp [hrec] at h
      | some r0 =>
        obtain ⟨r1, r2⟩ := r0
        simp [hrec] at h
        rcases List.mem_cons.mp hx with rfl | hx
        · exact Or.inl (by rw [← h.2]; exact List.mem_cons_self _ _)
        · rcases ih (h.1 ▸ hrec) hx with h1 | h1
          · exact Or.inl (by rw [← h.2]; exact List.mem_cons_of_mem _ h1)
          · exact Or.inr (by rw [← h.2]; exact List.mem_cons_of_mem _ h1)

theorem updateFirst_mem {p : α → Bool} {f : α → α} {l l' : List α} {r y : α}
    (h : updateFirst p f l = some (r, l')) (hy : y ∈ l') :
    y ∈ l ∨ ∃ x ∈ l, y = f x := by
  induction l generalizing l' with
  | nil => simp [updateFirst] at h
  | cons z zs ih =>
    by_cases hz : p z
    · simp [updateFirst, hz] at h
      rw [← h.2] at hy
      rcases List.mem_cons.mp hy with rfl | hy
      · exact Or.inr ⟨z, List.mem_cons_self _ _, rfl⟩
      · exact Or.inl (List.mem_cons_of_mem _ hy)
    · simp only [updateFirst, hz, if_false, Bool.false_eq_true] at h
      cases hrec : updateFirst p f zs with
      | none => simp [hrec] at h
      | some r0 =>
        obtain ⟨r1, r2⟩ := r0
        simp [hrec] at h
        rw [← h.2] at hy
        rcases List.mem_cons.mp hy with rfl | hy
        · exact Or.inl (List.mem_cons_self _ _)
        · rcases ih (h.1 ▸ hrec) hy with h1 | ⟨x, hx, hfx⟩
          · exact Or.inl (List.mem_cons_of_mem _ h1)
          · exact Or.inr ⟨x, List.mem_cons_of_mem _ hx, hfx⟩

theorem pyRoundInt_bounds {q : ℚ} {a b : ℤ} (ha : (a : ℚ) ≤ q) (hb : q ≤ (b : ℚ)) :
    a ≤ pyRoundInt q ∧ pyRoundInt q ≤ b := by
  have hfl : a ≤ ⌊q⌋ := Int.le_floor.mpr ha
  have hfu : ⌊q⌋ ≤ b := by
    have := Int.floor_le_floor hb
    simpa using this
  unfold pyRoundInt
  by_cases h1 : q - (⌊q⌋ : ℚ) < 1/2
  · simp only [h1, if_true]
    exact ⟨hfl, hfu⟩
  · have hfub : ⌊q⌋ + 1 ≤ b := by
      by_contra hcon
      push_neg at hcon
      have hfb : ⌊q⌋ = b := le_antisymm hfu (by omega)
      have : (1 : ℚ)/2 ≤ q - (b : ℚ) := by
        rw [← hfb]; linarith [not_lt.mp h1]
      linarith
    simp only [h1, if_false]
    by_cases h2 : (1:ℚ)/2 < q - (⌊q⌋ : ℚ)
    · simp only [h2, if_true]
      exact ⟨by omega, hfub⟩
    · simp only [h2, if_false]
      by_cases h3 : ⌊q⌋ % 2 = 0
      · simp only [h3, if_true]
        exact ⟨hfl, hfu⟩
      · simp only [h3, if_false]
        exact ⟨by omega, hfub⟩

theorem round2_bounds {q : ℚ} {a b : ℤ} (ha : (a : ℚ) ≤ q * 100)
    (hb : q * 100 ≤ (b : ℚ)) :
    (a : ℚ)/100 ≤ round2 q ∧ round2 q ≤ (b : ℚ)/100 := by
  obtain ⟨h1, h2⟩ := pyRoundInt_bounds ha hb
  unfold round2
  constructor
  · apply div_le_div_of_nonneg_right _ (by norm_num)
    exact_mod_cast h1
  · apply div_le_div_of_nonneg_right _ (by norm_num)
    exact_mod_cast h2

theorem round2_two_decimals (q : ℚ) : ∃ n : ℤ, round2 q * 100 = (n : ℚ) := by
  refine ⟨pyRoundInt (q * 100), ?_⟩
  unfold round2
  field_simp

-- ========== REFERENTIAL INTEGRITY ==========

/-- Every live image references a live user. -/
def ImagesOk (s : DB) : Prop :=
  ∀ img ∈ s.images_db, ∃ u ∈ s.users_db, u.id = img.user_id

/-- Every live assessment references a live image. -/
def AssessmentsOk (s : DB) : Prop :=
  ∀ a ∈ s.assessments_db, ∃ img ∈ s.images_db, img.id = a.image_id

/-- The invariant claimed by the spec: every live child record has all
its referenced parents live, including the model side of assessments
and the assessment side of quality metrics. -/
def FullIntegrity (s : DB) : Prop :=
  ImagesOk s ∧
  (∀ a ∈ s.assessments_db, ∃ m ∈ s.models_db, m.id = a.model_id) ∧
  AssessmentsOk s ∧
  (∀ qm ∈ s.quality_metrics_db, ∃ a ∈ s.assessments_db, a.id = qm.assessment_id)

theorem refint_create_user (u : UserCreate) (now : Nat) (key : String) {s : DB}
    (h1 : ImagesOk s) (h2 : AssessmentsOk s) :
    ImagesOk (create_user u now key s).2 ∧ AssessmentsOk (create_user u now key s).2 := by
  unfold create_user
  cases hd : findDup u.email u.username s.users_db with
  | some e => exact ⟨h1, h2⟩
  | none =>
    refine ⟨?_, h2⟩
    intro img himg
    obtain ⟨w, hw, hwid⟩ := h1 img himg
    exact ⟨w, List.mem_append.mpr (Or.inl hw), hwid⟩

theorem refint_update_user (user_id : Int) (upd : UserUpdate) {s : DB}
    (h1 : ImagesOk s) (h2 : AssessmentsOk s) :
    ImagesOk (update_user user_id upd s).2 ∧ AssessmentsOk (update_user user_id upd s).2 := by
  unfold update_user
  cases hm : updateFirst (fun u => u.id == user_id) (applyUserUpdate upd) s.users_db with
  | none => exact ⟨h1, h2⟩
  | some r =>
    obtain ⟨u, users'⟩ := r
    refine ⟨?_, h2⟩
    intro img himg
    obtain ⟨w, hw, hwid⟩ := h1 img himg
    rcases updateFirst_mem_of hm hw with hw' | hw'
    · exact ⟨w, hw', hwid⟩
    · exact ⟨applyUserUpdate upd w, hw', hwid⟩

theorem refint_delete_user (user_id : Int) {s : DB} (h1 : ImagesOk s)
    (h2 : AssessmentsOk s) :
    ImagesOk (delete_user user_id s).2 ∧ AssessmentsOk (delete_user user_id s).2 := by
  unfold delete_user
  cases hp : popFirst (fun u => u.id == user_id) s.users_db with
  | none => exact ⟨h1, h2⟩
  | some r =>
    obtain ⟨u, users'⟩ := r
    constructor
    · intro img himg
      have himg' := List.mem_filter.mp himg
      obtain ⟨w, hw, hwid⟩ := h1 img himg'.1
      have hne : img.user_id ≠ user_id := by
        simpa [bne_iff_ne] using himg'.2
      have hwp : (fun v : User => v.id == user_id) w = false := by
        simp [beq_iff_eq]
        rw [hwid]
        exact hne
      exact ⟨w, popFirst_mem_keep hp hw hwp, hwid⟩
    · intro a ha
      have ha' := List.mem_filter.mp ha
      have hc : a.image_id ∈
          (s.images_db.filter (fun img => img.user_id != user_id)).map
            (fun img => img.id) := by
        exact List.elem_iff.mp ha'.2
      obtain ⟨img, himg, hid⟩ := List.mem_map.mp hc
      exact ⟨img, himg, hid⟩

theorem refint_create_image (i : ImageCreate) (now : Nat) {s : DB}
    (h1 : ImagesOk s) (h2 : AssessmentsOk s) :
    ImagesOk (create_image i now s).2 ∧ AssessmentsOk (create_image i now s).2 := by
  unfold create_image
  by_cases hv : s.users_db.any (fun u => u.id == i.user_id)
  · simp only [hv, Bool.not_true, Bool.false_eq_true, if_false]
    constructor
    · intro img himg
      rcases List.mem_append.mp himg with hold | hnew
      · obtain ⟨w, hw, hwid⟩ := h1 img hold
        exact ⟨w, hw, hwid⟩
      · obtain ⟨w, hw, hwid⟩ := List.any_eq_true.mp hv
        rcases List.mem_singleton.mp hnew with rfl
        exact ⟨w, hw, by simpa [beq_iff_eq] using hwid⟩
    · intro a ha
      obtain ⟨img, himg, hid⟩ := h2 a ha
      exact ⟨img, List.mem_append.mpr (Or.inl himg), hid⟩
  · simp only [Bool.not_eq_true] at hv
    simp only [hv, Bool.not_false, if_true]
    exact ⟨h1, h2⟩

theorem refint_update_image (image_id : Int) (upd : ImageUpdate) {s : DB}
    (h1 : ImagesOk s) (h2 : AssessmentsOk s) :
    ImagesOk (update_image image_id upd s).2 ∧ AssessmentsOk (update_image image_id upd s).2 := by
  unfold update_image
  cases hm : updateFirst (fun i => i.id == image_id) (applyImageUpdate upd) s.images_db with
  | none => exact ⟨h1, h2⟩
  | some r =>
    obtain ⟨i, images'⟩ := r
    constructor
    · intro img himg
      rcases updateFirst_mem hm himg with hold | ⟨x, hx, hfx⟩
      · exact h1 img hold
      · obtain ⟨w, hw, hwid⟩ := h1 x hx
        exact ⟨w, hw, by rw [hfx]; exact hwid⟩
    · intro a ha
      obtain ⟨img, himg, hid⟩ := h2 a ha
      rcases updateFirst_mem_of hm himg with h' | h'
      · exact ⟨img, h', hid⟩
      · exact ⟨applyImageUpdate upd img, h', hid⟩

theorem refint_delete_image (image_id : Int) {s : DB}
    (h1 : ImagesOk s) (h2 : AssessmentsOk s) :
    ImagesOk (delete_image image_id s).2 ∧ AssessmentsOk (delete_image image_id s).2 := by
  unfold delete_image
  cases hp : popFirst (fun i => i.id == image_id) s.images_db with
  | none => exact ⟨h1, h2⟩
  | some r =>
    obtain ⟨i, images'⟩ := r
    constructor
    · intro img himg
      exact h1 img (popFirst_subset hp himg)
    · intro a ha
      have ha' := List.mem_filter.mp ha
      obtain ⟨img, himg, hid⟩ := h2 a ha'.1
      have hne : a.image_id ≠ image_id := by
        simpa [bne_iff_ne] using ha'.2
      have hpi : (fun v : Image => v.id == image_id) img = false := by
        simp [beq_iff_eq]
        rw [hid]
        exact hne
      exact ⟨img, popFirst_mem_keep hp himg hpi, hid⟩

theorem refint_create_model (m : ModelCreate) (now : Nat) {s : DB}
    (h1 : ImagesOk s) (h2 : AssessmentsOk s) :
    ImagesOk (create_model m now s).2 ∧ AssessmentsOk (create_model m now s).2 := by
  exact ⟨h1, h2⟩

theorem refint_update_model (model_id : Int) (upd : ModelUpdate) {s : DB}
    (h1 : ImagesOk s) (h2 : AssessmentsOk s) :
    ImagesOk (update_model model_id upd s).2 ∧ AssessmentsOk (update_model model_id upd s).2 := by
  unfold update_model
  cases hm : updateFirst (fun x => x.id == model_id) (applyModelUpdate upd) s.models_db with
  | none => exact ⟨h1, h2⟩
  | some r => obtain ⟨x, models'⟩ := r; exact ⟨h1, h2⟩

theorem refint_delete_model (model_id : Int) {s : DB}
    (h1 : ImagesOk s) (h2 : AssessmentsOk s) :
    ImagesOk (delete_model model_id s).2 ∧ AssessmentsOk (delete_model model_id s).2 := by
  unfold delete_model
  cases hp : popFirst (fun x => x.id == model_id) s.models_db with
  | none => exact ⟨h1, h2⟩
  | some r => obtain ⟨x, models'⟩ := r; exact ⟨h1, h2⟩

theorem refint_create_assessment (a : AssessmentCreate) (d : Draws) (now : Nat) {s : DB}
    (h1 : ImagesOk s) (h2 : AssessmentsOk s) :
    ImagesOk (create_assessment a d now s).2 ∧ AssessmentsOk (create_assessment a d now s).2 := by
  unfold create_assessment
  by_cases hv : s.images_db.any (fun i => i.id == a.image_id)
  · by_cases hm : s.models_db.any (fun m => m.id == a.model_id)
    · simp only [hv, hm, Bool.not_true, Bool.false_eq_true, if_false]
      refine ⟨h1, ?_⟩
      intro x hx
      rcases List.mem_append.mp hx with hold | hnew
      · exact h2 x hold
      · obtain ⟨w, hw, hwid⟩ := List.any_eq_true.mp hv
        rcases List.mem_singleton.mp hnew with rfl
        exact ⟨w, hw, by simpa [beq_iff_eq] using hwid⟩
    · simp only [Bool.not_eq_true] at hm
      simp only [hv, hm, Bool.not_true, Bool.not_false, Bool.false_eq_true, if_false, if_true]
      exact ⟨h1, h2⟩
  · simp only [Bool.not_eq_true] at hv
    simp only [hv, Bool.not_false, if_true]
    exact ⟨h1, h2⟩

theorem refint_update_assessment (assessment_id : Int) (upd : AssessmentUpdate) {s : DB}
    (h1 : ImagesOk s) (h2 : AssessmentsOk s) :
    ImagesOk (update_assessment assessment_id upd s).2 ∧
      AssessmentsOk (update_assessment assessment_id upd s).2 := by
  unfold update_assessment
  cases hm : updateFirst (fun a => a.id == assessment_id) (applyAssessmentUpdate upd)
      s.assessments_db with
  | none => exact ⟨h1, h2⟩
  | some r =>
    obtain ⟨a, assessments'⟩ := r
    refine ⟨h1, ?_⟩
    intro x hx
    rcases updateFirst_mem hm hx with hold | ⟨y, hy, rfl⟩
    · exact h2 x hold
    · obtain ⟨img, himg, hid⟩ := h2 y hy
      exact ⟨img, himg, hid⟩

theorem refint_delete_assessment (assessment_id : Int) {s : DB}
    (h1 : ImagesOk s) (h2 : AssessmentsOk s) :
    ImagesOk (delete_assessment assessment_id s).2 ∧
      AssessmentsOk (delete_assessment assessment_id s).2 := by
  unfold delete_assessment
  cases hp : popFirst (fun a => a.id == assessment_id) s.assessments_db with
  | none => exact ⟨h1, h2⟩
  | some r =>
    obtain ⟨a, assessments'⟩ := r
    refine ⟨h1, ?_⟩
    intro x hx
    exact h2 x (popFirst_subset hp hx)

theorem step_preserves_refint {s s' : DB} (hstep : Step s s')
    (h1 : ImagesOk s) (h2 : AssessmentsOk s) :
    ImagesOk s' ∧ AssessmentsOk s' := by
  cases hstep with
  | createUser u now key => exact refint_create_user u now key h1 h2
  | updateUser user_id upd => exact refint_update_user user_id upd h1 h2
  | deleteUser user_id => exact refint_delete_user user_id h1 h2
  | createImage i now => exact refint_create_image i now h1 h2
  | updateImage image_id upd => exact refint_update_image image_id upd h1 h2
  | deleteImage image_id => exact refint_delete_image image_id h1 h2
  | createModel m now => exact refint_create_model m now h1 h2
  | updateModel model_id upd => exact refint_update_model model_id upd h1 h2
  | deleteModel model_id => exact refint_delete_model model_id h1 h2
  | createAssessment a d now => exact refint_create_assessment a d now h1 h2
  | updateAssessment assessment_id upd => exact refint_update_assessment assessment_id upd h1 h2
  | deleteAssessment assessment_id => exact refint_delete_assessment assessment_id h1 h2
  | reset =>
    constructor
    · intro img himg; cases himg
    · intro a ha; cases ha

theorem reachable_refint {s : DB} (h : Reachable s) : ImagesOk s ∧ AssessmentsOk s := by
  induction h with
  | init =>
    constructor
    · intro img himg; cases himg
    · intro a ha; cases ha
  | step _ hstep ih => exact step_preserves_refint hstep ih.1 ih.2

-- ========== A CONCRETE EXECUTION ==========

def exUC : UserCreate := ⟨"alice", "alice@example.com", UserRole.user⟩

def exIC : ImageCreate := ⟨"photo.jpg", 1000, 1920, 1080, "jpg", 1⟩

def exMC : ModelCreate := ⟨"gsd-net", "1.0", "ResNet50", 0.95, true⟩

def exAC : AssessmentCreate := ⟨1, 1, 3, 0.9, 1.5⟩

def exDraws : Draws := ⟨1, 0.7, 0.5⟩

/-- State after create_user: one user of id 1. -/
def exS1 : DB := (create_user exUC 0 "key-1" initDB).2

/-- State after create_image: one image of id 1 owned by user 1. -/
def exS2 : DB := (create_image exIC 0 exS1).2

/-- State after create_model: one model of id 1. -/
def exS3 : DB := (create_model exMC 0 exS2).2

/-- State after create_assessment: assessment 1 on image 1 and model 1,
plus its quality metrics record. -/
def exS4 : DB := (create_assessment exAC exDraws 0 exS3).2

/-- State after delete_model 1. -/
def exS5 : DB := (delete_model 1 exS4).2

/-- State after delete_image 1. -/
def exS6 : DB := (delete_image 1 exS5).2

def c4U1 : UserCreate := ⟨"u1", "e1@example.com", UserRole.user⟩

def c4U2 : UserCreate := ⟨"u2", "e2@example.com", UserRole.user⟩

def c4U3 : UserCreate := ⟨"u3", "e3@example.com", UserRole.user⟩

/-- State after create_user u1, create_user u2: users of ids 1 and 2. -/
def c4S2 : DB := (create_user c4U2 0 "k2" (create_user c4U1 0 "k1" initDB).2).2

/-- State after delete_user 1: only the user of id 2 remains. -/
def c4S3 : DB := (delete_user 1 c4S2).2

theorem exS4_reachable : Reachable exS4 :=
  Reachable.step
    (Reachable.step
      (Reachable.step
        (Reachable.step Reachable.init (Step.createUser exUC 0 "key-1" initDB))
        (Step.createImage exIC 0 exS1))
      (Step.createModel exMC 0 exS2))
    (Step.createAssessment exAC exDraws 0 exS3)

theorem exS5_reachable : Reachable exS5 :=
  Reachable.step exS4_reachable (Step.deleteModel 1 exS4)

theorem exS6_reachable : Reachable exS6 :=
  Reachable.step exS5_reachable (Step.deleteImage 1 exS5)

-- ========== USER UNIQUENESS ==========

/-- No two live users share an email, and no two share a username. -/
def UsersUniq (s : DB) : Prop :=
  s.users_db.Pairwise (fun u v => u.email ≠ v.email ∧ u.username ≠ v.username)

theorem findDup_eq_none {email username : String} {l : List User} :
    findDup email username l = none ↔
      ∀ u ∈ l, u.email ≠ email ∧ u.username ≠ username := by
  induction l with
  | nil => simp [findDup]
  | cons u us ih =>
    constructor
    · intro h x hx
      by_cases he : u.email == email
      · simp [findDup, he] at h
      · by_cases hn : u.username == username
        · simp [findDup, he, hn] at h
        · rcases List.mem_cons.mp hx with rfl | hx
          · exact ⟨by simpa [beq_iff_eq] using he, by simpa [beq_iff_eq] using hn⟩
          · exact ih.mp (by simpa [findDup, he, hn] using h) x hx
    · intro hall
      have h1 := hall u (List.mem_cons_self _ _)
      have he : (u.email == email) = false := by
        simpa [beq_iff_eq] using h1.1
      have hn : (u.username == username) = false := by
        simpa [beq_iff_eq] using h1.2
      have hrec : findDup email username us = none :=
        ih.mpr (fun x hx => hall x (List.mem_cons_of_mem _ hx))
      simp [findDup, he, hn, hrec]

theorem create_image_users_db (i : ImageCreate) (now : Nat) (s : DB) :
    (create_image i now s).2.users_db = s.users_db := by
  by_cases hv : s.users_db.any (fun u => u.id == i.user_id)
  · simp [create_image, hv]
  · have hv' : s.users_db.any (fun u => u.id == i.user_id) = false := by simpa using hv
    simp [create_image, hv']

theorem update_image_users_db (image_id : Int) (upd : ImageUpdate) (s : DB) :
    (update_image image_id upd s).2.users_db = s.users_db := by
  unfold update_image
  cases hm : updateFirst (fun i => i.id == image_id) (applyImageUpdate upd) s.images_db with
  | none => rfl
  | some r => obtain ⟨i, images'⟩ := r; rfl

theorem delete_image_users_db (image_id : Int) (s : DB) :
    (delete_image image_id s).2.users_db = s.users_db := by
  unfold delete_image
  cases hp : popFirst (fun i => i.id == image_id) s.images_db with
  | none => rfl
  | some r => obtain ⟨i, images'⟩ := r; rfl

theorem create_model_users_db (m : ModelCreate) (now : Nat) (s : DB) :
    (create_model m now s).2.users_db = s.users_db := rfl

theorem update_model_users_db (model_id : Int) (upd : ModelUpdate) (s : DB) :
    (update_model model_id upd s).2.users_db = s.users_db := by
  unfold update_model
  cases hm : updateFirst (fun x => x.id == model_id) (applyModelUpdate upd) s.models_db with
  | none => rfl
  | some r => obtain ⟨x, models'⟩ := r; rfl

theorem delete_model_users_db (model_id : Int) (s : DB) :
    (delete_model model_id s).2.users_db = s.users_db := by
  unfold delete_model
  cases hp : popFirst (fun x => x.id == model_id) s.models_db with
  | none => rfl
  | some r => obtain ⟨x, models'⟩ := r; rfl

theorem create_assessment_users_db (a : AssessmentCreate) (d : Draws) (now : Nat) (s : DB) :
    (create_assessment a d now s).2.users_db = s.users_db := by
  unfold create_assessment
  by_cases hv : s.images_db.any (fun i => i.id == a.image_id)
  · by_cases hm : s.models_db.any (fun m => m.id == a.model_id)
    · simp [hv, hm]
    · have hm' : s.models_db.any (fun m => m.id == a.model_id) = false := by simpa using hm
      simp [hv, hm']
  · have hv' : s.images_db.any (fun i => i.id == a.image_id) = false := by simpa using hv
    simp [hv']

theorem update_assessment_users_db (assessment_id : Int) (upd : AssessmentUpdate) (s : DB) :
    (update_assessment assessment_id upd s).2.users_db = s.users_db := by
  unfold update_assessment
  cases hm : updateFirst (fun a => a.id == assessment_id) (applyAssessmentUpdate upd)
      s.assessments_db with
  | none => rfl
  | some r => obtain ⟨a, assessments'⟩ := r; rfl

theorem delete_assessment_users_db (assessment_id : Int) (s : DB) :
    (delete_assessment assessment_id s).2.users_db = s.users_db := by
  unfold delete_assessment
  cases hp : popFirst (fun a => a.id == assessment_id) s.assessments_db with
  | none => rfl
  | some r => obtain ⟨a, assessments'⟩ := r; rfl

/-- One call of a state-mutating handler other than update_user, with
arbitrary request data and environment inputs. -/
inductive StepNU : DB → DB → Prop where
  | createUser (u : UserCreate) (now : Nat) (key : String) (s : DB) :
      StepNU s (create_user u now key s).2
  | deleteUser (user_id : Int) (s : DB) :
      StepNU s (delete_user user_id s).2
  | createImage (i : ImageCreate) (now : Nat) (s : DB) :
      StepNU s (create_image i now s).2
  | updateImage (image_id : Int) (upd : ImageUpdate) (s : DB) :
      StepNU s (update_image image_id upd s).2
  | deleteImage (image_id : Int) (s : DB) :
      StepNU s (delete_image image_id s).2
  | createModel (m : ModelCreate) (now : Nat) (s : DB) :
      StepNU s (create_model m now s).2
  | updateModel (model_id : Int) (upd : ModelUpdate) (s : DB) :
      StepNU s (update_model model_id upd s).2
  | deleteModel (model_id : Int) (s : DB) :
      StepNU s (delete_model model_id s).2
  | createAssessment (a : AssessmentCreate) (d : Draws) (now : Nat) (s : DB) :
      StepNU s (create_assessment a d now s).2
  | updateAssessment (assessment_id : Int) (upd : AssessmentUpdate) (s : DB) :
      StepNU s (update_assessment assessment_id upd s).2
  | deleteAssessment (assessment_id : Int) (s : DB) :
      StepNU s (delete_assessment assessment_id s).2
  | reset (s : DB) :
      StepNU s (reset_data s).2

/-- States reachable from the empty stores without ever calling
update_user. -/
inductive ReachableNU : DB → Prop where
  | init : ReachableNU initDB
  | step {s s' : DB} : ReachableNU s → StepNU s s' → ReachableNU s'

theorem stepNU_preserves_uniq {s s' : DB} (hstep : StepNU s s')
    (h : UsersUniq s) : UsersUniq s' := by
  cases hstep with
  | createUser u now key =>
    unfold UsersUniq at h ⊢
    unfold create_user
    cases hd : findDup u.email u.username s.users_db with
    | some e => exact h
    | none =>
      have hdup := findDup_eq_none.mp hd
      refine List.pairwise_append.mpr ⟨h, List.pairwise_singleton _ _, ?_⟩
      intro x hx y hy
      rcases List.mem_singleton.mp hy with rfl
      exact hdup x hx
  | deleteUser user_id =>
    unfold UsersUniq at h ⊢
    unfold delete_user
    cases hp : popFirst (fun u => u.id == user_id) s.users_db with
    | none => exact h
    | some r =>
      obtain ⟨u, users'⟩ := r
      obtain ⟨l1, l2, hl, hl', hn, hx⟩ := popFirst_some_decomp hp
      rw [hl] at h
      show users'.Pairwise _
      rw [hl']
      exact h.sublist ((List.sublist_cons_self u l2).append_left l1)
  | createImage i now =>
    unfold UsersUniq at h ⊢
    rw [create_image_users_db]
    exact h
  | updateImage image_id upd =>
    unfold UsersUniq at h ⊢
    rw [update_image_users_db]
    exact h
  | deleteImage image_id =>
    unfold UsersUniq at h ⊢
    rw [delete_image_users_db]
    exact h
  | createModel m now =>
    unfold UsersUniq at h ⊢
    rw [create_model_users_db]
    exact h
  | updateModel model_id upd =>
    unfold UsersUniq at h ⊢
    rw [update_model_users_db]
    exact h
  | deleteModel model_id =>
    unfold UsersUniq at h ⊢
    rw [delete_model_users_db]
    exact h
  | createAssessment a d now =>
    unfold UsersUniq at h ⊢
    rw [create_assessment_users_db]
    exact h
  | updateAssessment assessment_id upd =>
    unfold UsersUniq at h ⊢
    rw [update_assessment_users_db]
    exact h
  | deleteAssessment assessment_id =>
    unfold UsersUniq at h ⊢
    rw [delete_assessment_users_db]
    exact h
  | reset =>
    unfold UsersUniq
    exact List.Pairwise.nil

theorem reachableNU_uniq {s : DB} (h : ReachableNU s) : UsersUniq s := by
  induction h with
  | init => exact List.Pairwise.nil
  | step _ hstep ih => exact stepNU_preserves_uniq hstep ih

/-- State after update_user 2 sets user 2's email to user 1's email. -/
def c7S3 : DB := (update_user 2 ⟨none, some "e1@example.com", none⟩ c4S2).2

theorem findLoop_cases (p : α → Bool) (l : List α) :
    (∃ l1 x l2, l = l1 ++ x :: l2 ∧ (∀ y ∈ l1, p y = false) ∧ p x = true ∧
      findLoop p l = some x) ∨
    ((∀ x ∈ l, p x = false) ∧ findLoop p l = none) := by
  cases hf : findLoop p l with
  | some x =>
    left
    obtain ⟨l1, l2, h1, h2, h3⟩ := findLoop_some_decomp hf
    exact ⟨l1, x, l2, h1, h2, h3, rfl⟩
  | none => exact Or.inr ⟨findLoop_eq_none.mp hf, rfl⟩

-- ========== CLAIM THEOREMS ==========

/-- C10: each single-record get operation returns the earliest-inserted
live record whose id equals the requested id (so the first-inserted
record shadows later duplicates), and fails with a 404 NotFound exactly
when no live record has that id. -/
theorem c10_gets_return_first_match (s : DB)
    (user_id image_id model_id assessment_id : Int) :
    ((∃ l1 u l2, s.users_db = l1 ++ u :: l2 ∧ (∀ v ∈ l1, v.id ≠ user_id) ∧
        u.id = user_id ∧ get_user user_id s = Except.ok u) ∨
      ((∀ u ∈ s.users_db, u.id ≠ user_id) ∧
        get_user user_id s = Except.error ⟨404, "User not found"⟩)) ∧
    ((∃ l1 i l2, s.images_db = l1 ++ i :: l2 ∧ (∀ v ∈ l1, v.id ≠ image_id) ∧
        i.id = image_id ∧ get_image image_id s = Except.ok i) ∨
      ((∀ i ∈ s.images_db, i.id ≠ image_id) ∧
        get_image image_id s = Except.error ⟨404, "Image not found"⟩)) ∧
    ((∃ l1 m l2, s.models_db = l1 ++ m :: l2 ∧ (∀ v ∈ l1, v.id ≠ model_id) ∧
        m.id = model_id ∧ get_model model_id s = Except.ok m) ∨
      ((∀ m ∈ s.models_db, m.id ≠ model_id) ∧
        get_model model_id s = Except.error ⟨404, "Model not found"⟩)) ∧
    ((∃ l1 a l2, s.assessments_db = l1 ++ a :: l2 ∧ (∀ v ∈ l1, v.id ≠ assessment_id) ∧
        a.id = assessment_id ∧ get_assessment assessment_id s = Except.ok a) ∨
      ((∀ a ∈ s.assessments_db, a.id ≠ assessment_id) ∧
        get_assessment assessment_id s = Except.error ⟨404, "Assessment not found"⟩)) := by
  refine ⟨?_, ?_, ?_, ?_⟩
  · rcases findLoop_cases (fun u : User => u.id == user_id) s.users_db with
      ⟨l1, x, l2, hl, hn, hx, hf⟩ | ⟨hn, hf⟩
    · left
      refine ⟨l1, x, l2, hl, ?_, by simpa [beq_iff_eq] using hx, by simp [get_user, hf]⟩
      intro v hv
      simpa [beq_iff_eq] using hn v hv
    · right
      refine ⟨?_, by simp [get_user, hf]⟩
      intro u hu
      simpa [beq_iff_eq] using hn u hu
  · rcases findLoop_cases (fun i : Image => i.id == image_id) s.images_db with
      ⟨l1, x, l2, hl, hn, hx, hf⟩ | ⟨hn, hf⟩
    · left
      refine ⟨l1, x, l2, hl, ?_, by simpa [beq_iff_eq] using hx, by simp [get_image, hf]⟩
      intro v hv
      simpa [beq_iff_eq] using hn v hv
    · right
      refine ⟨?_, by simp [get_image, hf]⟩
      intro i hi
      simpa [beq_iff_eq] using hn i hi
  · rcases findLoop_cases (fun m : Model => m.id == model_id) s.models_db with
      ⟨l1, x, l2, hl, hn, hx, hf⟩ | ⟨hn, hf⟩
    · left
      refine ⟨l1, x, l2, hl, ?_, by simpa [beq_iff_eq] using hx, by simp [get_model, hf]⟩
      intro v hv
      simpa [beq_iff_eq] using hn v hv
    · right
      refine ⟨?_, by simp [get_model, hf]⟩
      intro m hm
      simpa [beq_iff_eq] using hn m hm
  · rcases findLoop_cases (fun a : Assessment => a.id == assessment_id) s.assessments_db with
      ⟨l1, x, l2, hl, hn, hx, hf⟩ | ⟨hn, hf⟩
    · left
      refine ⟨l1, x, l2, hl, ?_, by simpa [beq_iff_eq] using hx,
        by simp [get_assessment, hf]⟩
      intro v hv
      simpa [beq_iff_eq] using hn v hv
    · right
      refine ⟨?_, by simp [get_assessment, hf]⟩
      intro a ha
      simpa [beq_iff_eq] using hn a ha

/-- C10 witness: the statement instantiated at the concrete state exS4
and id 1 for each store. -/
theorem c10_witness :
    ((∃ l1 u l2, exS4.users_db = l1 ++ u :: l2 ∧ (∀ v ∈ l1, v.id ≠ 1) ∧
        u.id = 1 ∧ get_user 1 exS4 = Except.ok u) ∨
      ((∀ u ∈ exS4.users_db, u.id ≠ 1) ∧
        get_user 1 exS4 = Except.error ⟨404, "User not found"⟩)) ∧
    ((∃ l1 i l2, exS4.images_db = l1 ++ i :: l2 ∧ (∀ v ∈ l1, v.id ≠ 1) ∧
        i.id = 1 ∧ get_image 1 exS4 = Except.ok i) ∨
      ((∀ i ∈ exS4.images_db, i.id ≠ 1) ∧
        get_image 1 exS4 = Except.error ⟨404, "Image not found"⟩)) ∧
    ((∃ l1 m l2, exS4.models_db = l1 ++ m :: l2 ∧ (∀ v ∈ l1, v.id ≠ 1) ∧
        m.id = 1 ∧ get_model 1 exS4 = Except.ok m) ∨
      ((∀ m ∈ exS4.models_db, m.id ≠ 1) ∧
        get_model 1 exS4 = Except.error ⟨404, "Model not found"⟩)) ∧
    ((∃ l1 a l2, exS4.assessments_db = l1 ++ a :: l2 ∧ (∀ v ∈ l1, v.id ≠ 1) ∧
        a.id = 1 ∧ get_assessment 1 exS4 = Except.ok a) ∨
      ((∀ a ∈ exS4.assessments_db, a.id ≠ 1) ∧
        get_assessment 1 exS4 = Except.error ⟨404, "Assessment not found"⟩)) :=
  c10_gets_return_first_match exS4 1 1 1 1

/-- C9: for a model id present in the model store, delete_model removes
the first Model record carrying that id and nothing else: the user,
image, assessment and quality-metrics stores are untouched, so every
assessment referencing the deleted model survives. -/
theorem c9_delete_model_frame (model_id : Int) (s : DB)
    (h : ∃ m ∈ s.models_db, m.id = model_id) :
    ∃ m l1 l2,
      s.models_db = l1 ++ m :: l2 ∧ m.id = model_id ∧
      (∀ m' ∈ l1, m'.id ≠ model_id) ∧
      (delete_model model_id s).1 =
        Except.ok ("Model " ++ m.model_name ++ " deleted successfully") ∧
      (delete_model model_id s).2.models_db = l1 ++ l2 ∧
      (delete_model model_id s).2.users_db = s.users_db ∧
      (delete_model model_id s).2.images_db = s.images_db ∧
      (delete_model model_id s).2.assessments_db = s.assessments_db ∧
      (delete_model model_id s).2.quality_metrics_db = s.quality_metrics_db ∧
      (∀ a ∈ s.assessments_db, a.model_id = model_id →
        a ∈ (delete_model model_id s).2.assessments_db) := by
  obtain ⟨m0, hm0, hid0⟩ := h
  have hp0 : (fun x : Model => x.id == model_id) m0 = true := by
    simpa [beq_iff_eq] using hid0
  obtain ⟨⟨x, models'⟩, hp⟩ :=
    popFirst_isSome (p := fun x : Model => x.id == model_id) hm0 hp0
  obtain ⟨l1, l2, hl, hl', hn, hx⟩ := popFirst_some_decomp hp
  refine ⟨x, l1, l2, hl, by simpa [beq_iff_eq] using hx, ?_, ?_, ?_, ?_, ?_, ?_, ?_, ?_⟩
  · intro m' hm'
    simpa [beq_iff_eq] using hn m' hm'
  · simp [delete_model, hp]
  · simp [delete_model, hp, hl']
  · simp [delete_model, hp]
  · simp [delete_model, hp]
  · simp [delete_model, hp]
  · simp [delete_model, hp]
  · intro a ha _
    simpa [delete_model, hp] using ha

/-- C2 counterexample: exS5 is reachable (create user, image, model,
assessment, then delete_model 1) and contains a live assessment whose
model_id has no live model; exS6 (after delete_image 1) additionally
contains a quality-metrics record whose assessment_id has no live
assessment.  So not every reachable state satisfies the claimed
referential integrity. -/
theorem c2_counterexample :
    Reachable exS5 ∧ ¬ FullIntegrity exS5 ∧
    Reachable exS6 ∧ ¬ FullIntegrity exS6 := by
  refine ⟨exS5_reachable, ?_, exS6_reachable, ?_⟩ <;>
    (simp only [FullIntegrity, ImagesOk, AssessmentsOk]; decide)

/-- C2 (amended): in every reachable state, every live image's user_id
refers to a live user and every live assessment's image_id refers to a
live image; the model_id of an assessment and the assessment_id of a
quality-metrics record can dangle (after delete_model, delete_user or
delete_image). -/
theorem c2_reachable_referential_integrity {s : DB} (h : Reachable s) :
    (∀ img ∈ s.images_db, ∃ u ∈ s.users_db, u.id = img.user_id) ∧
    (∀ a ∈ s.assessments_db, ∃ img ∈ s.images_db, img.id = a.image_id) :=
  reachable_refint h

/-- C2 witness: the integrity facts at the concrete reachable state exS4. -/
theorem c2_witness :
    (∀ img ∈ exS4.images_db, ∃ u ∈ exS4.users_db, u.id = img.user_id) ∧
    (∀ a ∈ exS4.assessments_db, ∃ img ∈ exS4.images_db, img.id = a.image_id) :=
  c2_reachable_referential_integrity exS4_reachable

/-- C7 counterexample: the state c7S3, reached by create_user u1,
create_user u2, update_user 2 with email e1, is reachable and holds two
live users (ids 1 and 2) with the same email: update_user does not
re-validate uniqueness. -/
theorem c7_counterexample :
    Reachable c7S3 ∧
    c7S3.users_db.map (fun u => u.id) = [1, 2] ∧
    c7S3.users_db.map (fun u => u.email) = ["e1@example.com", "e1@example.com"] ∧
    ¬ c7S3.users_db.Pairwise (fun u v => u.email ≠ v.email) := by
  refine ⟨?_, by decide, by decide, by decide⟩
  exact Reachable.step
    (Reachable.step
      (Reachable.step Reachable.init (Step.createUser c4U1 0 "k1" initDB))
      (Step.createUser c4U2 0 "k2" (create_user c4U1 0 "k1" initDB).2))
    (Step.updateUser 2 ⟨none, some "e1@example.com", none⟩ c4S2)

/-- C7 (amended): in every state reachable from the empty stores by the
exposed operations other than update_user, no two live users share an
email and no two share a username; update_user can break this because
it does not re-validate uniqueness. -/
theorem c7_user_uniqueness_without_update {s : DB} (h : ReachableNU s) :
    s.users_db.Pairwise (fun u v => u.email ≠ v.email) ∧
    s.users_db.Pairwise (fun u v => u.username ≠ v.username) := by
  have hu := reachableNU_uniq h
  unfold UsersUniq at hu
  exact ⟨hu.imp (fun hr => hr.1), hu.imp (fun hr => hr.2)⟩

/-- C7 witness: uniqueness at the concrete state c4S3, reached by two
creates and a delete without any update_user call. -/
theorem c7_witness :
    c4S3.users_db.Pairwise (fun u v => u.email ≠ v.email) ∧
    c4S3.users_db.Pairwise (fun u v => u.username ≠ v.username) :=
  c7_user_uniqueness_without_update
    (ReachableNU.step
      (ReachableNU.step
        (ReachableNU.step ReachableNU.init (StepNU.createUser c4U1 0 "k1" initDB))
        (StepNU.createUser c4U2 0 "k2" (create_user c4U1 0 "k1" initDB).2))
      (StepNU.deleteUser 1 c4S2))

/-- C1 counterexample: in exS4 assessment 1 sits on image 1 of user 1
and quality-metrics record 1 is keyed to assessment 1; delete_user 1
removes the assessment but leaves the quality-metrics store untouched,
so the metrics record whose assessment was just removed survives,
contrary to the claim. -/
theorem c1_counterexample :
    (∃ a ∈ exS4.assessments_db, a.id = 1 ∧ a.image_id = 1) ∧
    (∃ qm ∈ exS4.quality_metrics_db, qm.assessment_id = 1) ∧
    (delete_user 1 exS4).2.assessments_db = [] ∧
    (delete_user 1 exS4).2.quality_metrics_db = exS4.quality_metrics_db ∧
    exS4.quality_metrics_db.length = 1 :=
  ⟨by decide, by decide, by decide, rfl, by decide⟩

/-- C1 (amended): for a user id present in the user store, delete_user
removes the first User record with that id, every Image whose user_id
equals that id, and every Assessment whose image_id is not the id of
any remaining image; the quality-metrics store and the model store are
left unchanged.  For an absent id it fails with a 404 NotFound and
changes nothing. -/
theorem c1_delete_user_cascade (user_id : Int) (s : DB) :
    ((∃ u ∈ s.users_db, u.id = user_id) →
      ∃ u l1 l2,
        s.users_db = l1 ++ u :: l2 ∧ u.id = user_id ∧ (∀ v ∈ l1, v.id ≠ user_id) ∧
        (delete_user user_id s).1 =
          Except.ok ("User " ++ u.username ++ " deleted successfully") ∧
        (delete_user user_id s).2.users_db = l1 ++ l2 ∧
        (∀ img : Image, img ∈ (delete_user user_id s).2.images_db ↔
          (img ∈ s.images_db ∧ img.user_id ≠ user_id)) ∧
        (∀ a : Assessment, a ∈ (delete_user user_id s).2.assessments_db ↔
          (a ∈ s.assessments_db ∧
            ∃ img ∈ (delete_user user_id s).2.images_db, img.id = a.image_id)) ∧
        (delete_user user_id s).2.quality_metrics_db = s.quality_metrics_db ∧
        (delete_user user_id s).2.models_db = s.models_db) ∧
    ((∀ u ∈ s.users_db, u.id ≠ user_id) →
      delete_user user_id s = (Except.error ⟨404, "User not found"⟩, s)) := by
  constructor
  · rintro ⟨u0, hu0, hid0⟩
    obtain ⟨⟨x, users'⟩, hp⟩ :=
      popFirst_isSome (p := fun u : User => u.id == user_id) hu0
        (by simpa [beq_iff_eq] using hid0)
    obtain ⟨l1, l2, hl, hl', hn, hx⟩ := popFirst_some_decomp hp
    have himgs : (delete_user user_id s).2.images_db =
        s.images_db.filter (fun img => img.user_id != user_id) := by
      simp [delete_user, hp]
    have hass : (delete_user user_id s).2.assessments_db =
        s.assessments_db.filter (fun a =>
          ((s.images_db.filter (fun img => img.user_id != user_id)).map
            (fun img => img.id)).contains a.image_id) := by
      simp [delete_user, hp]
    refine ⟨x, l1, l2, hl, by simpa [beq_iff_eq] using hx, ?_, ?_, ?_, ?_, ?_, ?_, ?_⟩
    · intro v hv
      simpa [beq_iff_eq] using hn v hv
    · simp [delete_user, hp]
    · simp [delete_user, hp, hl']
    · intro img
      rw [himgs]
      simp [List.mem_filter, bne_iff_ne]
    · intro a
      rw [hass, himgs]
      simp only [List.mem_filter, List.elem_iff, List.mem_map]
    · simp [delete_user, hp]
    · simp [delete_user, hp]
  · intro hall
    have hnone : popFirst (fun u : User => u.id == user_id) s.users_db = none := by
      apply popFirst_eq_none.mpr
      intro u hu
      simpa [beq_iff_eq] using hall u hu
    simp [delete_user, hnone]

/-- C1 witness: deleting user 1 from the concrete state exS4. -/
theorem c1_witness :
    ∃ u l1 l2,
      exS4.users_db = l1 ++ u :: l2 ∧ u.id = 1 ∧ (∀ v ∈ l1, v.id ≠ 1) ∧
      (delete_user 1 exS4).1 =
        Except.ok ("User " ++ u.username ++ " deleted successfully") ∧
      (delete_user 1 exS4).2.users_db = l1 ++ l2 ∧
      (∀ img : Image, img ∈ (delete_user 1 exS4).2.images_db ↔
        (img ∈ exS4.images_db ∧ img.user_id ≠ 1)) ∧
      (∀ a : Assessment, a ∈ (delete_user 1 exS4).2.assessments_db ↔
        (a ∈ exS4.assessments_db ∧
          ∃ img ∈ (delete_user 1 exS4).2.images_db, img.id = a.image_id)) ∧
      (delete_user 1 exS4).2.quality_metrics_db = exS4.quality_metrics_db ∧
      (delete_user 1 exS4).2.models_db = exS4.models_db :=
  (c1_delete_user_cascade 1 exS4).1 (by decide)

/-- C3 counterexample: in exS4 quality-metrics record 1 is keyed to
assessment 1 on image 1; delete_image 1 removes the assessment but
leaves the quality-metrics store untouched, contrary to the claim. -/
theorem c3_counterexample :
    (∃ a ∈ exS4.assessments_db, a.id = 1 ∧ a.image_id = 1) ∧
    (∃ qm ∈ exS4.quality_metrics_db, qm.assessment_id = 1) ∧
    (delete_image 1 exS4).2.assessments_db = [] ∧
    (delete_image 1 exS4).2.quality_metrics_db = exS4.quality_metrics_db ∧
    exS4.quality_metrics_db.length = 1 :=
  ⟨by decide, by decide, by decide, rfl, by decide⟩

/-- C3 (amended): for an image id present in the image store,
delete_image removes the first Image record with that id and every
Assessment whose image_id equals that id; the quality-metrics, user
and model stores are left unchanged.  For an absent id it fails with a
404 NotFound and changes nothing. -/
theorem c3_delete_image_cascade (image_id : Int) (s : DB) :
    ((∃ i ∈ s.images_db, i.id = image_id) →
      ∃ i l1 l2,
        s.images_db = l1 ++ i :: l2 ∧ i.id = image_id ∧ (∀ v ∈ l1, v.id ≠ image_id) ∧
        (delete_image image_id s).1 =
          Except.ok ("Image " ++ i.filename ++ " deleted successfully") ∧
        (delete_image image_id s).2.images_db = l1 ++ l2 ∧
        (∀ a : Assessment, a ∈ (delete_image image_id s).2.assessments_db ↔
          (a ∈ s.assessments_db ∧ a.image_id ≠ image_id)) ∧
        (delete_image image_id s).2.quality_metrics_db = s.quality_metrics_db ∧
        (delete_image image_id s).2.users_db = s.users_db ∧
        (delete_image image_id s).2.models_db = s.models_db) ∧
    ((∀ i ∈ s.images_db, i.id ≠ image_id) →
      delete_image image_id s = (Except.error ⟨404, "Image not found"⟩, s)) := by
  constructor
  · rintro ⟨i0, hi0, hid0⟩
    obtain ⟨⟨x, images'⟩, hp⟩ :=
      popFirst_isSome (p := fun i : Image => i.id == image_id) hi0
        (by simpa [beq_iff_eq] using hid0)
    obtain ⟨l1, l2, hl, hl', hn, hx⟩ := popFirst_some_decomp hp
    refine ⟨x, l1, l2, hl, by simpa [beq_iff_eq] using hx, ?_, ?_, ?_, ?_, ?_, ?_, ?_⟩
    · intro v hv
      simpa [beq_iff_eq] using hn v hv
    · simp [delete_image, hp]
    · simp [delete_image, hp, hl']
    · intro a
      have hass : (delete_image image_id s).2.assessments_db =
          s.assessments_db.filter (fun a => a.image_id != image_id) := by
        simp [delete_image, hp]
      rw [hass]
      simp [List.mem_filter, bne_iff_ne]
    · simp [delete_image, hp]
    · simp [delete_image, hp]
    · simp [delete_image, hp]
  · intro hall
    have hnone : popFirst (fun i : Image => i.id == image_id) s.images_db = none := by
      apply popFirst_eq_none.mpr
      intro i hi
      simpa [beq_iff_eq] using hall i hi
    simp [delete_image, hnone]

/-- C3 witness: deleting image 1 from the concrete state exS4. -/
theorem c3_witness :
    ∃ i l1 l2,
      exS4.images_db = l1 ++ i :: l2 ∧ i.id = 1 ∧ (∀ v ∈ l1, v.id ≠ 1) ∧
      (delete_image 1 exS4).1 =
        Except.ok ("Image " ++ i.filename ++ " deleted successfully") ∧
      (delete_image 1 exS4).2.images_db = l1 ++ l2 ∧
      (∀ a : Assessment, a ∈ (delete_image 1 exS4).2.assessments_db ↔
        (a ∈ exS4.assessments_db ∧ a.image_id ≠ 1)) ∧
      (delete_image 1 exS4).2.quality_metrics_db = exS4.quality_metrics_db ∧
      (delete_image 1 exS4).2.users_db = exS4.users_db ∧
      (delete_image 1 exS4).2.models_db = exS4.models_db :=
  (c3_delete_image_cascade 1 exS4).1 (by decide)

/-- C5: when the requested image_id matches no live image, or the
requested model_id matches no live model, create_assessment raises an
error and leaves the whole store state (in particular the assessment
and quality-metrics stores) exactly as before the call. -/
theorem c5_create_assessment_atomic_failure (a : AssessmentCreate) (d : Draws)
    (now : Nat) (s : DB)
    (h : (∀ i ∈ s.images_db, i.id ≠ a.image_id) ∨
      (∀ m ∈ s.models_db, m.id ≠ a.model_id)) :
    (∃ e, (create_assessment a d now s).1 = Except.error e) ∧
    (create_assessment a d now s).2 = s := by
  by_cases hv : s.images_db.any (fun i => i.id == a.image_id)
  · have hmall : ∀ m ∈ s.models_db, m.id ≠ a.model_id := by
      rcases h with h | h
      · exfalso
        obtain ⟨i, hi, hii⟩ := List.any_eq_true.mp hv
        exact h i hi (by simpa [beq_iff_eq] using hii)
      · exact h
    have hmv : s.models_db.any (fun m => m.id == a.model_id) = false := by
      by_contra hc
      rw [Bool.not_eq_false] at hc
      obtain ⟨m, hm2, hmm⟩ := List.any_eq_true.mp hc
      exact hmall m hm2 (by simpa [beq_iff_eq] using hmm)
    exact ⟨⟨⟨404, "Model not found"⟩, by simp [create_assessment, hv, hmv]⟩,
      by simp [create_assessment, hv, hmv]⟩
  · have hv' : s.images_db.any (fun i => i.id == a.image_id) = false := by
      simpa using hv
    exact ⟨⟨⟨404, "Image not found"⟩, by simp [create_assessment, hv']⟩,
      by simp [create_assessment, hv']⟩

/-- C5 witness: creating an assessment on the empty stores fails and
changes nothing. -/
theorem c5_witness :
    (∃ e, (create_assessment exAC exDraws 0 initDB).1 = Except.error e) ∧
    (create_assessment exAC exDraws 0 initDB).2 = initDB :=
  c5_create_assessment_atomic_failure exAC exDraws 0 initDB (Or.inl (by decide))

/-- C6: with a live image and model, create_assessment succeeds and the
returned assessment carries the rounded random samples (gsd in [0,9],
confidence in [1/2,1], processing time in [1/10,2], all with exactly
two decimal places), ignores the caller-supplied score fields, and
appends exactly one quality-metrics record with the fixed placeholder
values keyed to the new assessment id. -/
theorem c6_create_assessment_generated (a : AssessmentCreate) (d : Draws)
    (now : Nat) (s : DB)
    (hi : ∃ i ∈ s.images_db, i.id = a.image_id)
    (hm : ∃ m ∈ s.models_db, m.id = a.model_id)
    (hg1 : 0 ≤ d.gsd) (hg2 : d.gsd ≤ 9)
    (hc1 : 1/2 ≤ d.conf) (hc2 : d.conf ≤ 1)
    (hp1 : 1/10 ≤ d.ptime) (hp2 : d.ptime ≤ 2) :
    ∃ res : Assessment,
      (create_assessment a d now s).1 = Except.ok res ∧
      res.id = (s.assessments_db.length : Int) + 1 ∧
      res.image_id = a.image_id ∧ res.model_id = a.model_id ∧
      res.gsd_value = round2 d.gsd ∧
      res.confidence_score = round2 d.conf ∧
      res.processing_time = round2 d.ptime ∧
      0 ≤ res.gsd_value ∧ res.gsd_value ≤ 9 ∧
      1/2 ≤ res.confidence_score ∧ res.confidence_score ≤ 1 ∧
      1/10 ≤ res.processing_time ∧ res.processing_time ≤ 2 ∧
      (∃ n : ℤ, res.gsd_value * 100 = (n : ℚ)) ∧
      (∃ n : ℤ, res.confidence_score * 100 = (n : ℚ)) ∧
      (∃ n : ℤ, res.processing_time * 100 = (n : ℚ)) ∧
      (∀ a' : AssessmentCreate, a'.image_id = a.image_id → a'.model_id = a.model_id →
        create_assessment a' d now s = create_assessment a d now s) ∧
      (create_assessment a d now s).2.assessments_db = s.assessments_db ++ [res] ∧
      (create_assessment a d now s).2.quality_metrics_db = s.quality_metrics_db ++
        [⟨(s.quality_metrics_db.length : Int) + 1, res.id, 0.8, 0.1, 2.5, false, "good"⟩] := by
  obtain ⟨i0, hi0, hii0⟩ := hi
  obtain ⟨m0, hm0, hmm0⟩ := hm
  have hv : s.images_db.any (fun i => i.id == a.image_id) = true :=
    List.any_eq_true.mpr ⟨i0, hi0, by simpa [beq_iff_eq] using hii0⟩
  have hmv : s.models_db.any (fun m => m.id == a.model_id) = true :=
    List.any_eq_true.mpr ⟨m0, hm0, by simpa [beq_iff_eq] using hmm0⟩
  have hgb := round2_bounds (a := 0) (b := 900)
    (by push_cast; linarith) (by push_cast; linarith : d.gsd * 100 ≤ ((900 : ℤ) : ℚ))
  have hcb := round2_bounds (a := 50) (b := 100)
    (by push_cast; linarith) (by push_cast; linarith : d.conf * 100 ≤ ((100 : ℤ) : ℚ))
  have hpb := round2_bounds (a := 10) (b := 200)
    (by push_cast; linarith) (by push_cast; linarith : d.ptime * 100 ≤ ((200 : ℤ) : ℚ))
  refine ⟨{ id := (s.assessments_db.length : Int) + 1
            image_id := a.image_id
            model_id := a.model_id
            gsd_value := round2 d.gsd
            confidence_score := round2 d.conf
            processing_time := round2 d.ptime
            assessment_date := now },
    by simp [create_assessment, hv, hmv], rfl, rfl, rfl, rfl, rfl, rfl,
    ?_, ?_, ?_, ?_, ?_, ?_,
    round2_two_decimals d.gsd, round2_two_decimals d.conf, round2_two_decimals d.ptime,
    ?_, by simp [create_assessment, hv, hmv], by simp [create_assessment, hv, hmv]⟩
  · have := hgb.1; norm_num at this ⊢; linarith
  · have := hgb.2; norm_num at this ⊢; linarith
  · have := hcb.1; norm_num at this ⊢; linarith
  · have := hcb.2; norm_num at this ⊢; linarith
  · have := hpb.1; norm_num at this ⊢; linarith
  · have := hpb.2; norm_num at this ⊢; linarith
  · intro a' h1 h2
    simp only [create_assessment, h1, h2]

/-- C6 witness: creating an assessment on exS3 (live image 1 and model
1) with the sample draws (1, 0.7, 0.5). -/
theorem c6_witness :
    ∃ res : Assessment,
      (create_assessment exAC exDraws 0 exS3).1 = Except.ok res ∧
      res.id = (exS3.assessments_db.length : Int) + 1 ∧
      res.image_id = exAC.image_id ∧ res.model_id = exAC.model_id ∧
      res.gsd_value = round2 exDraws.gsd ∧
      res.confidence_score = round2 exDraws.conf ∧
      res.processing_time = round2 exDraws.ptime ∧
      0 ≤ res.gsd_value ∧ res.gsd_value ≤ 9 ∧
      1/2 ≤ res.confidence_score ∧ res.confidence_score ≤ 1 ∧
      1/10 ≤ res.processing_time ∧ res.processing_time ≤ 2 ∧
      (∃ n : ℤ, res.gsd_value * 100 = (n : ℚ)) ∧
      (∃ n : ℤ, res.confidence_score * 100 = (n : ℚ)) ∧
      (∃ n : ℤ, res.processing_time * 100 = (n : ℚ)) ∧
      (∀ a' : AssessmentCreate, a'.image_id = exAC.image_id →
        a'.model_id = exAC.model_id →
        create_assessment a' exDraws 0 exS3 = create_assessment exAC exDraws 0 exS3) ∧
      (create_assessment exAC exDraws 0 exS3).2.assessments_db =
        exS3.assessments_db ++ [res] ∧
      (create_assessment exAC exDraws 0 exS3).2.quality_metrics_db =
        exS3.quality_metrics_db ++
          [⟨(exS3.quality_metrics_db.length : Int) + 1, res.id, 0.8, 0.1, 2.5,
            false, "good"⟩] :=
  c6_create_assessment_generated exAC exDraws 0 exS3 (by decide) (by decide)
    (by norm_num [exDraws]) (by norm_num [exDraws]) (by norm_num [exDraws])
    (by norm_num [exDraws]) (by norm_num [exDraws]) (by norm_num [exDraws])

/-- C4 failing input: create two users (ids 1 and 2), delete user 1,
then create a third user.  The code assigns the third user the id
len(users_db) + 1 = 2, which is still the id of the live second user:
the id is reused and now collides, and it is not "count of records
ever inserted + 1" (that count is 2, so the claim would require id 3,
and forbids handing out 2 again). -/
theorem c4_id_reuse :
    (∃ u, (create_user c4U3 0 "k3" c4S3).1 = Except.ok u ∧ u.id = 2) ∧
    (∃ u ∈ c4S3.users_db, u.id = 2) ∧
    (create_user c4U3 0 "k3" c4S3).2.users_db.map (fun u => u.id) = [2, 2] :=
  ⟨⟨⟨2, "u3", "e3@example.com", UserRole.user, 0, "k3"⟩, rfl, by decide⟩,
    by decide, by decide⟩

/-- C8 counterexample: createImage with a dangling user_id on the empty
stores fails with HTTP status 404 ("User not found"), not with a
400-class DanglingReference error; the same holds for createAssessment
with a dangling image_id. -/
theorem c8_counterexample :
    (create_image exIC 0 initDB).1 = Except.error ⟨404, "User not found"⟩ ∧
    (create_assessment exAC exDraws 0 initDB).1 =
      Except.error ⟨404, "Image not found"⟩ ∧
    (404 : Nat) ≠ 400 := by
  refine ⟨rfl, rfl, by decide⟩

theorem findDup_status {email username : String} :
    ∀ {l : List User} {e : ApiError}, findDup email username l = some e →
      e.status = 400 := by
  intro l
  induction l with
  | nil => intro e h; simp [findDup] at h
  | cons u us ih =>
    intro e h
    by_cases he : u.email == email
    · simp [findDup, he] at h
      rw [← h]
    · by_cases hn : u.username == username
      · simp [findDup, he, hn] at h
        rw [← h]
      · exact ih (by simpa [findDup, he, hn] using h)

/-- C8 (amended): a create whose foreign key does not resolve fails
with HTTP status 404 NotFound, exactly like a lookup of an unknown id;
the only 400-class create-time validation failure is the duplicate
email/username check of create_user. -/
theorem c8_error_statuses (i : ImageCreate) (a : AssessmentCreate) (d : Draws)
    (now : Nat) (uc : UserCreate) (key : String) (s : DB) :
    ((∀ u ∈ s.users_db, u.id ≠ i.user_id) →
      (create_image i now s).1 = Except.error ⟨404, "User not found"⟩) ∧
    ((∀ im ∈ s.images_db, im.id ≠ a.image_id) →
      (create_assessment a d now s).1 = Except.error ⟨404, "Image not found"⟩) ∧
    ((∃ im ∈ s.images_db, im.id = a.image_id) →
      (∀ m ∈ s.models_db, m.id ≠ a.model_id) →
      (create_assessment a d now s).1 = Except.error ⟨404, "Model not found"⟩) ∧
    (∀ e, (create_user uc now key s).1 = Except.error e → e.status = 400) := by
  refine ⟨?_, ?_, ?_, ?_⟩
  · intro hall
    have hv : s.users_db.any (fun u => u.id == i.user_id) = false := by
      rw [Bool.eq_false_iff]
      intro hc
      obtain ⟨u, hu, huu⟩ := List.any_eq_true.mp hc
      exact hall u hu (by simpa [beq_iff_eq] using huu)
    simp [create_image, hv]
  · intro hall
    have hv : s.images_db.any (fun im => im.id == a.image_id) = false := by
      rw [Bool.eq_false_iff]
      intro hc
      obtain ⟨im, him, himm⟩ := List.any_eq_true.mp hc
      exact hall im him (by simpa [beq_iff_eq] using himm)
    simp [create_assessment, hv]
  · rintro ⟨im0, him0, hid0⟩ hall
    have hv : s.images_db.any (fun im => im.id == a.image_id) = true :=
      List.any_eq_true.mpr ⟨im0, him0, by simpa [beq_iff_eq] using hid0⟩
    have hmv : s.models_db.any (fun m => m.id == a.model_id) = false := by
      rw [Bool.eq_false_iff]
      intro hc
      obtain ⟨m, hm, hmm⟩ := List.any_eq_true.mp hc
      exact hall m hm (by simpa [beq_iff_eq] using hmm)
    simp [create_assessment, hv, hmv]
  · intro e he
    cases hd : findDup uc.email uc.username s.users_db with
    | some e' =>
      have : (create_user uc now key s).1 = Except.error e' := by
        simp [create_user, hd]
      rw [this] at he
      cases he
      exact findDup_status hd
    | none =>
      have : (create_user uc now key s).1 = Except.ok
          { id := (s.users_db.length : Int) + 1
            username := uc.username
            email := uc.email
            role := uc.role
            registration_date := now
            api_key := key } := by
        simp [create_user, hd]
      rw [this] at he
      cases he

/-- C8 witness: the statement instantiated with concrete inputs on the
state c4S3 (a single live user of id 2 with email e2 and username u2). -/
theorem c8_witness :
    ((∀ u ∈ c4S3.users_db, u.id ≠ exIC.user_id) →
      (create_image exIC 0 c4S3).1 = Except.error ⟨404, "User not found"⟩) ∧
    ((∀ im ∈ c4S3.images_db, im.id ≠ exAC.image_id) →
      (create_assessment exAC exDraws 0 c4S3).1 =
        Except.error ⟨404, "Image not found"⟩) ∧
    ((∃ im ∈ c4S3.images_db, im.id = exAC.image_id) →
      (∀ m ∈ c4S3.models_db, m.id ≠ exAC.model_id) →
      (create_assessment exAC exDraws 0 c4S3).1 =
        Except.error ⟨404, "Model not found"⟩) ∧
    (∀ e, (create_user c4U2 0 "k" c4S3).1 = Except.error e → e.status = 400) :=
  c8_error_statuses exIC exAC exDraws 0 c4U2 ("k") c4S3

/-- C9 witness: deleting model 1 from the concrete state exS4. -/
theorem c9_witness :
    ∃ m l1 l2,
      exS4.models_db = l1 ++ m :: l2 ∧ m.id = 1 ∧
      (∀ m' ∈ l1, m'.id ≠ 1) ∧
      (delete_model 1 exS4).1 =
        Except.ok ("Model " ++ m.model_name ++ " deleted successfully") ∧
      (delete_model 1 exS4).2.models_db = l1 ++ l2 ∧
      (delete_model 1 exS4).2.users_db = exS4.users_db ∧
      (delete_model 1 exS4).2.images_db = exS4.images_db ∧
      (delete_model 1 exS4).2.assessments_db = exS4.assessments_db ∧
      (delete_model 1 exS4).2.quality_metrics_db = exS4.quality_metrics_db ∧
      (∀ a ∈ exS4.assessments_db, a.model_id = 1 →
        a ∈ (delete_model 1 exS4).2.assessments_db) :=
  c9_delete_model_frame 1 exS4 (by decide)

end GsdApi
